import Mathlib

/-!
Shallow embedding of the booking-services backend (models/booking.py,
crud/booking_crud.py, main.py).  Datetimes are modelled as integers,
booking statuses as the strings the source stores, the database session
as an explicit application state (lists of users, services, bookings plus
an id counter).
-/

namespace BookingServices

/-- `models/user.py`: only the fields relevant to existence checks. -/
structure User where
  id : Int
  email : String
  username : String
deriving Repr, DecidableEq

/-- `models/service.py`: only the fields relevant to existence checks. -/
structure Service where
  id : Int
  name : String
  price : Int
  duration : Int
deriving Repr, DecidableEq

/-- `models/booking.py`, SQLAlchemy model `Booking`: the stored record.
The `status` column is a plain string with default `"pending"`. -/
structure Booking where
  id : Int
  user_id : Int
  service_id : Int
  booking_date : Int
  start_time : Int
  end_time : Int
  status : String
  notes : Option String
  total_price : Int
deriving Repr, DecidableEq

/-- `models/booking.py`, `BookingStatus` enum values. -/
def BookingStatus.PENDING : String := "pending"

def BookingStatus.CONFIRMED : String := "confirmed"

def BookingStatus.CANCELLED : String := "cancelled"

def BookingStatus.COMPLETED : String := "completed"

/-- `models/booking.py`, pydantic schema `BookingCreate` (inherits
`BookingBase`).  It declares no `status` field. -/
structure BookingCreate where
  user_id : Int
  service_id : Int
  booking_date : Int
  start_time : Int
  end_time : Int
  notes : Option String
  total_price : Int
deriving Repr, DecidableEq

/-- A raw creation request as a client may send it over HTTP: the
`BookingBase` fields plus an arbitrary extra `status` field.  Pydantic
parses such a body into `BookingCreate`, silently dropping fields the
schema does not declare. -/
structure BookingCreateRaw where
  user_id : Int
  service_id : Int
  booking_date : Int
  start_time : Int
  end_time : Int
  notes : Option String
  total_price : Int
  status : Option String
deriving Repr, DecidableEq

/-- Pydantic parsing of a raw request body into `BookingCreate`: fields
not declared on the schema (here `status`) are ignored. -/
def parseBookingCreate (r : BookingCreateRaw) : BookingCreate :=
  { user_id := r.user_id
    service_id := r.service_id
    booking_date := r.booking_date
    start_time := r.start_time
    end_time := r.end_time
    notes := r.notes
    total_price := r.total_price }

/-- `models/booking.py`, pydantic schema `BookingUpdate`: every field
optional; an absent field (`none` here) is excluded by
`dict(exclude_unset=True)` in the update.  `notes` may be explicitly set
to null, hence the nested option. -/
structure BookingUpdate where
  booking_date : Option Int
  start_time : Option Int
  end_time : Option Int
  notes : Option (Option String)
  total_price : Option Int
deriving Repr, DecidableEq

/-- The database session's contents: the three tables plus the
autoincrement counter the store uses to assign booking ids. -/
structure AppState where
  users : List User
  services : List Service
  bookings : List Booking
  next_booking_id : Int
deriving Repr, DecidableEq

/-- Python truthiness of the optional `exclude_booking_id` argument:
`None` and `0` are falsy, every other integer is truthy
(`if exclude_booking_id:` in `check_availability`). -/
def optIntTruthy : Option Int → Bool
  | none => false
  | some i => i ≠ 0

/-- `crud/booking_crud.py`, `check_availability`: count the bookings for
`service_id` whose status is `confirmed` or `pending` and whose interval
`[start_time, end_time)` overlaps the proposed one (strict comparisons:
`Booking.start_time < end_time AND Booking.end_time > start_time`);
when `exclude_booking_id` is truthy, additionally filter out that id.
Available iff the count is zero. -/
def check_availability (bookings : List Booking) (service_id : Int)
    (start_time end_time : Int) (exclude_booking_id : Option Int) : Bool :=
  let base := bookings.filter fun b =>
    b.service_id == service_id &&
    (b.status == BookingStatus.CONFIRMED || b.status == BookingStatus.PENDING) &&
    (decide (b.start_time < end_time) && decide (b.end_time > start_time))
  let query :=
    if optIntTruthy exclude_booking_id then
      base.filter fun b => b.id != exclude_booking_id.getD 0
    else base
  query.length == 0

/-- Replace the first list element satisfying `p` by `f` of it (the
SQLAlchemy pattern `query.filter(...).first()` followed by mutating that
one object and committing). -/
def updateFirst (p : Booking → Bool) (f : Booking → Booking) :
    List Booking → List Booking
  | [] => []
  | b :: rest => if p b then f b :: rest else b :: updateFirst p f rest

/-- Remove the first list element satisfying `p` (`session.delete` on the
object returned by `query.filter(...).first()`). -/
def eraseFirst (p : Booking → Bool) : List Booking → List Booking
  | [] => []
  | b :: rest => if p b then rest else b :: eraseFirst p rest

/-- `crud/user_crud.py`, `get_user`: first user with the given id. -/
def get_user (users : List User) (user_id : Int) : Option User :=
  users.find? fun u => u.id == user_id

/-- `crud/service_crud.py`, `get_service`: first service with the id. -/
def get_service (services : List Service) (service_id : Int) : Option Service :=
  services.find? fun s => s.id == service_id

/-- `crud/booking_crud.py`, `get_booking`: first booking with the id. -/
def get_booking (bookings : List Booking) (booking_id : Int) : Option Booking :=
  bookings.find? fun b => b.id == booking_id

/-- `crud/booking_crud.py`, `create_booking`: construct a `Booking` from
the `BookingCreate` fields — no `status` argument, so the column default
`"pending"` applies — insert it (the store assigns the next id) and
return the refreshed record together with the new state. -/
def create_booking (st : AppState) (booking : BookingCreate) :
    Booking × AppState :=
  let db_booking : Booking :=
    { id := st.next_booking_id
      user_id := booking.user_id
      service_id := booking.service_id
      booking_date := booking.booking_date
      start_time := booking.start_time
      end_time := booking.end_time
      status := BookingStatus.PENDING
      notes := booking.notes
      total_price := booking.total_price }
  (db_booking,
   { st with
      bookings := st.bookings ++ [db_booking]
      next_booking_id := st.next_booking_id + 1 })

/-- `dict(exclude_unset=True)` + `setattr` loop of
`crud/booking_crud.py`, `update_booking`: copy over exactly the fields
the client supplied. -/
def applyBookingUpdate (u : BookingUpdate) (b : Booking) : Booking :=
  { b with
      booking_date := u.booking_date.getD b.booking_date
      start_time := u.start_time.getD b.start_time
      end_time := u.end_time.getD b.end_time
      notes := u.notes.getD b.notes
      total_price := u.total_price.getD b.total_price }

/-- `crud/booking_crud.py`, `update_booking`: fetch the first booking
with the id; when found, set the supplied fields and commit; return the
booking (or `none`) with the resulting table. -/
def update_booking (bookings : List Booking) (booking_id : Int)
    (booking : BookingUpdate) : Option Booking × List Booking :=
  match get_booking bookings booking_id with
  | none => (none, bookings)
  | some b =>
      let b' := applyBookingUpdate booking b
      (some b', updateFirst (fun x => x.id == booking_id)
        (fun _ => b') bookings)

/-- `crud/booking_crud.py`, `update_booking_status`: fetch the first
booking with the id; when found, overwrite its `status` field with the
supplied string unconditionally and commit. -/
def update_booking_status (bookings : List Booking) (booking_id : Int)
    (status : String) : Option Booking × List Booking :=
  match get_booking bookings booking_id with
  | none => (none, bookings)
  | some b =>
      let b' := { b with status := status }
      (some b', updateFirst (fun x => x.id == booking_id)
        (fun _ => b') bookings)

/-- `crud/booking_crud.py`, `delete_booking`: fetch the first booking
with the id; when found, delete it and return `true`, else `false`. -/
def delete_booking (bookings : List Booking) (booking_id : Int) :
    Bool × List Booking :=
  match get_booking bookings booking_id with
  | none => (false, bookings)
  | some _ => (true, eraseFirst (fun b => b.id == booking_id) bookings)

/-- The typed outcomes the request layer surfaces (`main.py`): the HTTP
error kinds raised via `HTTPException`, plus an unhandled Python
`AttributeError` escaping a handler. -/
inductive ApiError where
  | notFoundUser (id : Int)
  | notFoundService (id : Int)
  | notFoundBooking (id : Int)
  | invalidArgument (detail : String)
  | conflictError
  | attributeError (msg : String)
deriving Repr, DecidableEq

/-- A value the name `status` can denote inside a `main.py` handler:
either the `fastapi` `status` module (imported at module level) or a
plain string (a parameter shadowing that import). -/
inductive PyVal where
  | vstr (s : String)
  | fastapiStatusModule
deriving Repr, DecidableEq

/-- Python attribute lookup for the HTTP status constants used by the
handlers: defined on the `fastapi` `status` module, an `AttributeError`
on a plain string. -/
def pyGetattr : PyVal → String → Except String Nat
  | PyVal.fastapiStatusModule, "HTTP_200_OK" => Except.ok 200
  | PyVal.fastapiStatusModule, "HTTP_400_BAD_REQUEST" => Except.ok 400
  | PyVal.fastapiStatusModule, "HTTP_404_NOT_FOUND" => Except.ok 404
  | PyVal.fastapiStatusModule, a =>
      Except.error ("AttributeError: module has no attribute " ++ a)
  | PyVal.vstr _, a =>
      Except.error ("AttributeError: str object has no attribute " ++ a)

/-- `main.py`, `create_booking` handler: validate that the referenced
user exists (404 `NotFound(user)` otherwise), then that the referenced
service exists (404 `NotFound(service)` otherwise), then persist via the
crud layer.  The availability checker is never consulted.  The handler
returns the outcome together with the session state it leaves behind
(unchanged whenever it raises before inserting). -/
def create_booking_endpoint (st : AppState) (raw : BookingCreateRaw) :
    Except ApiError Booking × AppState :=
  let booking := parseBookingCreate raw
  match get_user st.users booking.user_id with
  | none => (Except.error (ApiError.notFoundUser booking.user_id), st)
  | some _ =>
      match get_service st.services booking.service_id with
      | none => (Except.error (ApiError.notFoundService booking.service_id), st)
      | some _ =>
          let (b, st') := create_booking st booking
          (Except.ok b, st')

/-- `main.py`, `update_booking` handler: delegate to the crud update;
`none` becomes 404 `NotFound(booking)`. -/
def update_booking_endpoint (st : AppState) (booking_id : Int)
    (booking : BookingUpdate) : Except ApiError Booking × AppState :=
  match update_booking st.bookings booking_id booking with
  | (none, _) => (Except.error (ApiError.notFoundBooking booking_id), st)
  | (some b, bookings') => (Except.ok b, { st with bookings := bookings' })

/-- `main.py`, `update_booking_status` handler.  The query parameter is
named `status`, so inside the body the name `status` denotes that string
and shadows the module-level `from fastapi import status`; both error
branches evaluate `status.HTTP_400_BAD_REQUEST` resp.
`status.HTTP_404_NOT_FOUND` to build the `HTTPException`, which on a
string raises `AttributeError` instead. -/
def update_booking_status_endpoint (st : AppState) (booking_id : Int)
    (status : String) : Except ApiError Booking × AppState :=
  let statusName : PyVal := PyVal.vstr status
  let valid_statuses := ["pending", "confirmed", "cancelled", "completed"]
  if ¬ valid_statuses.contains status then
    match pyGetattr statusName "HTTP_400_BAD_REQUEST" with
    | Except.ok _ =>
        (Except.error (ApiError.invalidArgument
          "Invalid status. Must be one of the four recognized values"), st)
    | Except.error msg => (Except.error (ApiError.attributeError msg), st)
  else
    match update_booking_status st.bookings booking_id status with
    | (none, _) =>
        match pyGetattr statusName "HTTP_404_NOT_FOUND" with
        | Except.ok _ => (Except.error (ApiError.notFoundBooking booking_id), st)
        | Except.error msg => (Except.error (ApiError.attributeError msg), st)
    | (some b, bookings') =>
        (Except.ok b, { st with bookings := bookings' })

/-- `main.py`, `delete_booking` handler: delegate to the crud delete;
`false` becomes 404 `NotFound(booking)`. -/
def delete_booking_endpoint (st : AppState) (booking_id : Int) :
    Except ApiError Unit × AppState :=
  match delete_booking st.bookings booking_id with
  | (false, _) => (Except.error (ApiError.notFoundBooking booking_id), st)
  | (true, bookings') => (Except.ok (), { st with bookings := bookings' })

/-- The exclusion `check_availability` actually applies: a booking id is
filtered out only when the optional argument carries a NONZERO id equal
to it (`if exclude_booking_id:` is Python truthiness, so `0` behaves
like `None`). -/
def excludedByCode : Option Int → Int → Bool
  | none, _ => false
  | some i, bid => decide (i ≠ 0) && bid == i

/-- A sample user for concrete evaluations. -/
def demoUser : User :=
  { id := 1, email := "alice@example.com", username := "alice" }

/-- A sample service for concrete evaluations. -/
def demoService : Service :=
  { id := 1, name := "massage", price := 100, duration := 60 }

/-- A sample pending booking `[10, 20)` on service 1 for concrete
evaluations. -/
def demoBooking : Booking :=
  { id := 1, user_id := 1, service_id := 1, booking_date := 0
    start_time := 10, end_time := 20, status := "pending"
    notes := none, total_price := 50 }

/-- A sample session state holding `demoUser`, `demoService` and
`demoBooking`. -/
def demoState : AppState :=
  { users := [demoUser], services := [demoService]
    bookings := [demoBooking], next_booking_id := 2 }

/-- A pending booking `[10, 20)` on service 1 whose id is `0` — the
corner the truthiness test of `exclude_booking_id` mishandles. -/
def zeroIdPending : Booking :=
  { id := 0, user_id := 1, service_id := 1, booking_date := 0
    start_time := 10, end_time := 20, status := "pending"
    notes := none, total_price := 50 }

/-! Helper lemmas shared by the claim theorems. -/

/-- Characterisation of `check_availability`: available exactly when no
booking for the service with status `confirmed` or `pending` that is not
excluded (in the code's truthiness sense) overlaps the proposed
half-open interval. -/
theorem check_availability_eq_true_iff (bookings : List Booking)
    (sid st en : Int) (excl : Option Int) :
    check_availability bookings sid st en excl = true ↔
      ∀ b ∈ bookings, b.service_id = sid →
        (b.status = BookingStatus.CONFIRMED ∨ b.status = BookingStatus.PENDING) →
        excludedByCode excl b.id = false →
        ¬(b.start_time < en ∧ b.end_time > st) := by
  rcases excl with _ | i
  · simp [check_availability, optIntTruthy, excludedByCode,
      List.length_eq_zero, List.filter_eq_nil_iff]
  · by_cases hi : i = 0
    · subst hi
      simp [check_availability, optIntTruthy, excludedByCode,
        List.length_eq_zero, List.filter_eq_nil_iff]
    · simp [check_availability, optIntTruthy, excludedByCode, hi,
        List.length_eq_zero, List.filter_eq_nil_iff, List.mem_filter]
      constructor <;> intro h b hb <;> have hh := h b hb <;> tauto

/-- A booking id of `0` is never excluded, whatever the optional
argument holds. -/
theorem excludedByCode_zero (excl : Option Int) :
    excludedByCode excl 0 = false := by
  rcases excl with _ | i
  · rfl
  · simp [excludedByCode]
    omega

/-- `eraseFirst` drops exactly one element when one matches. -/
theorem eraseFirst_length (p : Booking → Bool) :
    ∀ l : List Booking, (∃ x ∈ l, p x = true) →
      (eraseFirst p l).length + 1 = l.length := by
  intro l
  induction l with
  | nil => simp
  | cons a t ih =>
      intro h
      by_cases hpa : p a
      · simp [eraseFirst, hpa]
      · have ht : ∃ x ∈ t, p x = true := by
          rcases h with ⟨x, hx, hpx⟩
          rcases List.mem_cons.mp hx with hxa | hxt
          · exact absurd (hxa ▸ hpx) (by simpa using hpa)
          · exact ⟨x, hxt, hpx⟩
        simp [eraseFirst, hpa, ih ht]

/-- Elements that do not match `p` survive `eraseFirst`. -/
theorem mem_eraseFirst (p : Booking → Bool) :
    ∀ l : List Booking, ∀ x ∈ l, p x = false → x ∈ eraseFirst p l := by
  intro l
  induction l with
  | nil => simp
  | cons a t ih =>
      intro x hx hpx
      by_cases hpa : p a
      · rcases List.mem_cons.mp hx with hxa | hxt
        · exact absurd (hxa ▸ hpx) (by simp [hpa])
        · simpa [eraseFirst, hpa] using hxt
      · rcases List.mem_cons.mp hx with hxa | hxt
        · simp [eraseFirst, hpa, hxa]
        · simp [eraseFirst, hpa, ih x hxt hpx]

/-- `eraseFirst` never invents elements. -/
theorem eraseFirst_subset (p : Booking → Bool) :
    ∀ l : List Booking, ∀ x ∈ eraseFirst p l, x ∈ l := by
  intro l
  induction l with
  | nil => simp [eraseFirst]
  | cons a t ih =>
      intro x hx
      by_cases hpa : p a
      · simp only [eraseFirst, hpa, if_true] at hx
        exact List.mem_cons_of_mem a hx
      · simp only [eraseFirst, hpa, if_false] at hx
        rcases List.mem_cons.mp hx with hxa | hxt
        · simp [hxa]
        · exact List.mem_cons_of_mem a (ih x hxt)

/-- Elements that do not match `p` survive `updateFirst` unchanged. -/
theorem mem_updateFirst (p : Booking → Bool) (f : Booking → Booking) :
    ∀ l : List Booking, ∀ x ∈ l, p x = false → x ∈ updateFirst p f l := by
  intro l
  induction l with
  | nil => simp
  | cons a t ih =>
      intro x hx hpx
      by_cases hpa : p a
      · rcases List.mem_cons.mp hx with hxa | hxt
        · exact absurd (hxa ▸ hpx) (by simp [hpa])
        · simp [updateFirst, hpa, List.mem_cons_of_mem _ hxt]
      · rcases List.mem_cons.mp hx with hxa | hxt
        · simp [updateFirst, hpa, hxa]
        · simp [updateFirst, hpa, ih x hxt hpx]

/-! Claim theorems. -/

/-- C1 (amended): the availability checker returns `true` iff no booking
for the service with status `pending` or `confirmed` — other than the
excluded one, when an exclusion id is given AND nonzero — satisfies
`s < endTime ∧ e > startTime` for its interval `[s, e)`; in particular
with zero bookings for the service it returns `true`, and cancelled and
completed bookings never cause it to return `false`. -/
theorem C1_availability_characterisation
    (bookings : List Booking) (sid st en : Int) (excl : Option Int) :
    (check_availability bookings sid st en excl = true ↔
      ∀ b ∈ bookings, b.service_id = sid →
        (b.status = BookingStatus.CONFIRMED ∨ b.status = BookingStatus.PENDING) →
        excludedByCode excl b.id = false →
        ¬(b.start_time < en ∧ b.end_time > st)) ∧
    ((∀ b ∈ bookings, b.service_id ≠ sid) →
      check_availability bookings sid st en excl = true) ∧
    ((∀ b ∈ bookings,
        b.status = BookingStatus.CANCELLED ∨ b.status = BookingStatus.COMPLETED) →
      check_availability bookings sid st en excl = true) := by
  refine ⟨check_availability_eq_true_iff bookings sid st en excl, ?_, ?_⟩
  · intro h
    rw [check_availability_eq_true_iff]
    intro b hb hsid
    exact absurd hsid (h b hb)
  · intro h
    rw [check_availability_eq_true_iff]
    intro b hb _ hstat
    rcases h b hb with hc | hc <;> rcases hstat with hs | hs <;>
      simp_all [BookingStatus.CANCELLED, BookingStatus.COMPLETED,
        BookingStatus.CONFIRMED, BookingStatus.PENDING]

/-- C1 counterexample: one pending booking with id `0` covering `[10,20)`
on service 1, checked for `[10,20)` with `excludeBookingId = 0`.  The
claim as stated demands `available = true` (the only conflicting booking
is the excluded one), but the code tests the exclusion id for truthiness,
applies no exclusion, and returns `false`. -/
theorem C1_claim_counterexample :
    ¬ (check_availability [zeroIdPending] 1 10 20 (some 0) = true ↔
      ¬ ∃ b ∈ [zeroIdPending],
          b.service_id = 1 ∧
          (b.status = BookingStatus.PENDING ∨ b.status = BookingStatus.CONFIRMED) ∧
          b.id ≠ 0 ∧ b.start_time < 20 ∧ b.end_time > 10) := by
  decide

/-- Witness for C1: the empty-service and cancelled-only cases at
concrete inputs. -/
theorem C1_availability_characterisation_witness :
    check_availability [] 1 10 20 none = true ∧
    check_availability
      [{ id := 2, user_id := 1, service_id := 1, booking_date := 0,
         start_time := 10, end_time := 20, status := "cancelled",
         notes := none, total_price := 50 }] 1 10 20 none = true := by
  constructor
  · exact (C1_availability_characterisation [] 1 10 20 none).2.1 (by simp)
  · exact (C1_availability_characterisation
      [{ id := 2, user_id := 1, service_id := 1, booking_date := 0,
         start_time := 10, end_time := 20, status := "cancelled",
         notes := none, total_price := 50 }] 1 10 20 none).2.2
      (by
        intro b hb
        rw [List.mem_singleton] at hb
        subst hb
        exact Or.inl rfl)

/-- C2: touching intervals do not conflict — with a pending or confirmed
booking `[a, b)` as the only booking of its service, checking `[b, c)`
(with `b < c`) returns available; more generally, whenever every booking
in the table meets the proposed interval only at an equal endpoint
(existing end = proposed start or existing start = proposed end), the
checker returns available. -/
theorem C2_touching_intervals :
    (∀ (bk : Booking) (c : Int),
      (bk.status = BookingStatus.PENDING ∨ bk.status = BookingStatus.CONFIRMED) →
      bk.end_time < c →
      check_availability [bk] bk.service_id bk.end_time c none = true) ∧
    (∀ (bookings : List Booking) (sid st en : Int),
      (∀ b ∈ bookings, b.end_time = st ∨ b.start_time = en) →
      check_availability bookings sid st en none = true) := by
  constructor
  · intro bk c _ _
    rw [check_availability_eq_true_iff]
    intro b hb _ _ _ hov
    rw [List.mem_singleton] at hb
    subst hb
    exact absurd hov.2 (lt_irrefl _)
  · intro bookings sid st en h
    rw [check_availability_eq_true_iff]
    intro b hb _ _ _ hov
    rcases h b hb with he | hs
    · exact absurd (he ▸ hov.2) (lt_irrefl st)
    · exact absurd (hs ▸ hov.1) (lt_irrefl en)

/-- Witness for C2: booking `[10,11)` on service 1, checking `[11,12)`
gives available. -/
theorem C2_touching_intervals_witness :
    check_availability
      [{ id := 1, user_id := 1, service_id := 1, booking_date := 0,
         start_time := 10, end_time := 11, status := "pending",
         notes := none, total_price := 5 }] 1 11 12 none = true :=
  C2_touching_intervals.1
    { id := 1, user_id := 1, service_id := 1, booking_date := 0,
      start_time := 10, end_time := 11, status := "pending",
      notes := none, total_price := 5 } 12 (Or.inl rfl) (by decide)

/-- C3 (amended): excluding self — for every booking X with NONZERO id
and status pending or confirmed, checking exactly X's own interval on
X's service with `excludeBookingId = X.id` returns available, provided
no other pending or confirmed booking for the service overlaps that
interval. -/
theorem C3_exclude_self (bookings : List Booking) (X : Booking)
    (_hmem : X ∈ bookings) (hid : X.id ≠ 0)
    (_hstat : X.status = BookingStatus.PENDING ∨ X.status = BookingStatus.CONFIRMED)
    (hothers : ∀ b ∈ bookings, b.id ≠ X.id → b.service_id = X.service_id →
      (b.status = BookingStatus.PENDING ∨ b.status = BookingStatus.CONFIRMED) →
      ¬(b.start_time < X.end_time ∧ b.end_time > X.start_time)) :
    check_availability bookings X.service_id X.start_time X.end_time
      (some X.id) = true := by
  rw [check_availability_eq_true_iff]
  intro b hb hsid hbstat hexcl
  have hbne : b.id ≠ X.id := by
    intro he
    simp [excludedByCode, hid, he] at hexcl
  exact hothers b hb hbne hsid hbstat.symm

/-- C3 counterexample: a pending booking X with id `0` at `[10,20)` is
the only booking of its service, so no OTHER booking overlaps, yet
checking X's own interval with `excludeBookingId = X.id = 0` returns
unavailable: the code tests the exclusion id for truthiness and `0`
applies no exclusion, so X conflicts with itself. -/
theorem C3_claim_counterexample :
    zeroIdPending.status = BookingStatus.PENDING ∧
    (∀ b ∈ [zeroIdPending], b.id = zeroIdPending.id) ∧
    check_availability [zeroIdPending] zeroIdPending.service_id
      zeroIdPending.start_time zeroIdPending.end_time
      (some zeroIdPending.id) = false := by
  decide

/-- Witness for C3: re-saving `demoBooking` (id 1) unchanged is
available. -/
theorem C3_exclude_self_witness :
    check_availability [demoBooking] demoBooking.service_id
      demoBooking.start_time demoBooking.end_time (some demoBooking.id) = true :=
  C3_exclude_self [demoBooking] demoBooking (List.mem_singleton.mpr rfl)
    (by decide) (Or.inl rfl)
    (by
      intro b hb hne _ _
      rw [List.mem_singleton] at hb
      subst hb
      exact absurd rfl hne)

/-- C10: the checker tests `excludeBookingId` for truthiness, not
presence — passing `0` behaves exactly like passing no exclusion, and a
pending or confirmed booking with id `0` whose interval overlaps the
proposed one forces unavailable whatever exclusion id is passed. -/
theorem C10_exclusion_truthiness (bookings : List Booking) (sid st en : Int) :
    check_availability bookings sid st en (some 0) =
      check_availability bookings sid st en none ∧
    ∀ (excl : Option Int) (b : Booking), b ∈ bookings → b.id = 0 →
      b.service_id = sid →
      (b.status = BookingStatus.CONFIRMED ∨ b.status = BookingStatus.PENDING) →
      b.start_time < en → b.end_time > st →
      check_availability bookings sid st en excl = false := by
  constructor
  · rfl
  · intro excl b hb h0 hsid hstat h1 h2
    rw [Bool.eq_false_iff]
    intro htrue
    rw [check_availability_eq_true_iff] at htrue
    exact htrue b hb hsid hstat
      (by rw [h0]; exact excludedByCode_zero excl) ⟨h1, h2⟩

/-- Witness for C10: a confirmed id-0 booking `[10,20)` makes `[0,15)`
unavailable even with `excludeBookingId = 7`. -/
theorem C10_exclusion_truthiness_witness :
    check_availability
      [{ id := 0, user_id := 1, service_id := 1, booking_date := 0,
         start_time := 10, end_time := 20, status := "confirmed",
         notes := none, total_price := 50 }] 1 0 15 (some 7) = false :=
  (C10_exclusion_truthiness
    [{ id := 0, user_id := 1, service_id := 1, booking_date := 0,
       start_time := 10, end_time := 20, status := "confirmed",
       notes := none, total_price := 50 }] 1 0 15).2 (some 7)
    { id := 0, user_id := 1, service_id := 1, booking_date := 0,
      start_time := 10, end_time := 20, status := "confirmed",
      notes := none, total_price := 50 }
    (List.mem_singleton.mpr rfl) rfl rfl (Or.inl rfl) (by decide) (by decide)

/-- C4: booking creation fails with `NotFound(user)` when the user id
does not resolve, and with `NotFound(service)` when the user resolves
but the service id does not; in either failure case the session state —
in particular the booking table — is left unchanged. -/
theorem C4_create_missing_references
    (st : AppState) (raw : BookingCreateRaw) :
    (get_user st.users raw.user_id = none →
      create_booking_endpoint st raw =
        (Except.error (ApiError.notFoundUser raw.user_id), st)) ∧
    (get_user st.users raw.user_id ≠ none →
      get_service st.services raw.service_id = none →
      create_booking_endpoint st raw =
        (Except.error (ApiError.notFoundService raw.service_id), st)) := by
  constructor
  · intro h
    simp [create_booking_endpoint, parseBookingCreate, h]
  · intro h hs
    rcases Option.ne_none_iff_exists'.mp h with ⟨u, hu⟩
    simp [create_booking_endpoint, parseBookingCreate, hu, hs]

/-- Witness for C4: both failure branches at concrete states. -/
theorem C4_create_missing_references_witness :
    (create_booking_endpoint
      { users := [], services := [demoService], bookings := []
        next_booking_id := 1 }
      { user_id := 1, service_id := 1, booking_date := 0, start_time := 10
        end_time := 20, notes := none, total_price := 50, status := none } =
      (Except.error (ApiError.notFoundUser 1),
        { users := [], services := [demoService], bookings := []
          next_booking_id := 1 })) ∧
    (create_booking_endpoint
      { users := [demoUser], services := [], bookings := []
        next_booking_id := 1 }
      { user_id := 1, service_id := 1, booking_date := 0, start_time := 10
        end_time := 20, notes := none, total_price := 50, status := none } =
      (Except.error (ApiError.notFoundService 1),
        { users := [demoUser], services := [], bookings := []
          next_booking_id := 1 })) := by
  constructor
  · exact (C4_create_missing_references
      { users := [], services := [demoService], bookings := []
        next_booking_id := 1 }
      { user_id := 1, service_id := 1, booking_date := 0, start_time := 10
        end_time := 20, notes := none, total_price := 50
        status := none }).1 rfl
  · exact (C4_create_missing_references
      { users := [demoUser], services := [], bookings := []
        next_booking_id := 1 }
      { user_id := 1, service_id := 1, booking_date := 0, start_time := 10
        end_time := 20, notes := none, total_price := 50
        status := none }).2 (by decide) rfl

/-- C5: every successfully created booking is persisted with status
`pending`, regardless of any `status` value supplied by the caller in
the raw creation request (the schema drops it). -/
theorem C5_created_status_pending
    (st : AppState) (raw : BookingCreateRaw) (b : Booking) (st' : AppState)
    (h : create_booking_endpoint st raw = (Except.ok b, st')) :
    b.status = BookingStatus.PENDING ∧ st'.bookings = st.bookings ++ [b] := by
  simp only [create_booking_endpoint, create_booking] at h
  split at h
  · simp at h
  · split at h
    · simp at h
    · rw [Prod.mk.injEq, Except.ok.injEq] at h
      rcases h with ⟨hb, hst⟩
      subst hb
      subst hst
      exact ⟨rfl, rfl⟩

/-- Witness for C5: a creation request that supplies
`status = "confirmed"` still yields a `pending` booking. -/
theorem C5_created_status_pending_witness :
    ({ id := 2, user_id := 1, service_id := 1, booking_date := 0
       start_time := 30, end_time := 40, status := "pending"
       notes := none, total_price := 50 } : Booking).status =
        BookingStatus.PENDING ∧
    ({ users := [demoUser], services := [demoService]
       bookings := [demoBooking,
        { id := 2, user_id := 1, service_id := 1, booking_date := 0
          start_time := 30, end_time := 40, status := "pending"
          notes := none, total_price := 50 }]
       next_booking_id := 3 } : AppState).bookings =
      demoState.bookings ++
        [{ id := 2, user_id := 1, service_id := 1, booking_date := 0
           start_time := 30, end_time := 40, status := "pending"
           notes := none, total_price := 50 }] :=
  C5_created_status_pending demoState
    { user_id := 1, service_id := 1, booking_date := 0, start_time := 30
      end_time := 40, notes := none, total_price := 50
      status := some "confirmed" }
    { id := 2, user_id := 1, service_id := 1, booking_date := 0
      start_time := 30, end_time := 40, status := "pending"
      notes := none, total_price := 50 }
    { users := [demoUser], services := [demoService]
      bookings := [demoBooking,
        { id := 2, user_id := 1, service_id := 1, booking_date := 0
          start_time := 30, end_time := 40, status := "pending"
          notes := none, total_price := 50 }]
      next_booking_id := 3 }
    rfl

/-- C6: booking creation never consults the availability checker and
never yields `ConflictError`: whenever the referenced user and service
exist it succeeds — whatever overlapping pending or confirmed bookings
the table already holds — and any error it does yield is not
`ConflictError`. -/
theorem C6_create_never_conflicts (st : AppState) (raw : BookingCreateRaw) :
    (get_user st.users raw.user_id ≠ none →
      get_service st.services raw.service_id ≠ none →
      ∃ b st', create_booking_endpoint st raw = (Except.ok b, st')) ∧
    (∀ e st2, create_booking_endpoint st raw = (Except.error e, st2) →
      e ≠ ApiError.conflictError) := by
  constructor
  · intro hu hs
    rcases Option.ne_none_iff_exists'.mp hu with ⟨u, hu'⟩
    rcases Option.ne_none_iff_exists'.mp hs with ⟨s, hs'⟩
    refine ⟨(create_booking st (parseBookingCreate raw)).1,
      (create_booking st (parseBookingCreate raw)).2, ?_⟩
    simp [create_booking_endpoint, parseBookingCreate, create_booking, hu', hs']
  · intro e st2 h
    simp only [create_booking_endpoint] at h
    split at h
    · rw [Prod.mk.injEq, Except.error.injEq] at h
      rw [← h.1]
      intro hc
      cases hc
    · split at h
      · rw [Prod.mk.injEq, Except.error.injEq] at h
        rw [← h.1]
        intro hc
        cases hc
      · simp at h

/-- Witness for C6: creating a booking at `[10,20)` on service 1, which
already holds the pending `demoBooking` at `[10,20)`, succeeds. -/
theorem C6_create_never_conflicts_witness :
    ∃ b st', create_booking_endpoint demoState
      { user_id := 1, service_id := 1, booking_date := 0, start_time := 10
        end_time := 20, notes := none, total_price := 50, status := none } =
      (Except.ok b, st') :=
  (C6_create_never_conflicts demoState
    { user_id := 1, service_id := 1, booking_date := 0, start_time := 10
      end_time := 20, notes := none, total_price := 50, status := none }).1
    (by decide) (by decide)

/-- C7 (code evaluated at the failing inputs): in the
`update_booking_status` handler the query parameter `status` shadows the
module-level `from fastapi import status`, so the invalid-status branch
(`status = "archived"`) raises `AttributeError` instead of the
documented `InvalidArgument`/400, and the unknown-id branch raises
`AttributeError` instead of `NotFound(booking)`/404; the success path
does overwrite the status unconditionally with the supplied value. -/
theorem C7_status_shadowing_eval :
    update_booking_status_endpoint demoState 1 "archived" =
      (Except.error (ApiError.attributeError
        "AttributeError: str object has no attribute HTTP_400_BAD_REQUEST"),
       demoState) ∧
    update_booking_status_endpoint demoState 99 "confirmed" =
      (Except.error (ApiError.attributeError
        "AttributeError: str object has no attribute HTTP_404_NOT_FOUND"),
       demoState) ∧
    (update_booking_status_endpoint demoState 1 "completed").1 =
      Except.ok { demoBooking with status := "completed" } := by
  exact ⟨rfl, rfl, rfl⟩

/-- C8: partial field update — with an unknown id it fails with
`NotFound(booking)` and leaves the state unchanged; with a known id it
succeeds unconditionally (no overlap re-validation) and the resulting
booking takes each supplied field's value while every omitted field —
and the id, user, service and status fields — retains its prior value;
bookings with other ids are untouched. -/
theorem C8_partial_update (st : AppState) (bid : Int) (u : BookingUpdate) :
    (get_booking st.bookings bid = none →
      update_booking_endpoint st bid u =
        (Except.error (ApiError.notFoundBooking bid), st)) ∧
    (∀ b, get_booking st.bookings bid = some b →
      ∃ b' st', update_booking_endpoint st bid u = (Except.ok b', st') ∧
        b'.booking_date = u.booking_date.getD b.booking_date ∧
        b'.start_time = u.start_time.getD b.start_time ∧
        b'.end_time = u.end_time.getD b.end_time ∧
        b'.notes = u.notes.getD b.notes ∧
        b'.total_price = u.total_price.getD b.total_price ∧
        b'.id = b.id ∧ b'.user_id = b.user_id ∧
        b'.service_id = b.service_id ∧ b'.status = b.status ∧
        st'.users = st.users ∧ st'.services = st.services ∧
        (∀ x ∈ st.bookings, x.id ≠ bid → x ∈ st'.bookings)) := by
  constructor
  · intro h
    simp [update_booking_endpoint, update_booking, h]
  · intro b hb
    refine ⟨applyBookingUpdate u b,
      AppState.mk st.users st.services
        (updateFirst (fun x => x.id == bid)
          (fun _ => applyBookingUpdate u b) st.bookings)
        st.next_booking_id,
      ?_, rfl, rfl, rfl, rfl, rfl, rfl, rfl, rfl, rfl, rfl, rfl, ?_⟩
    · simp [update_booking_endpoint, update_booking, hb]
    · intro x hx hne
      exact mem_updateFirst _ _ st.bookings x hx (by simp [hne])

/-- Witness for C8: updating only `notes` on `demoBooking` leaves
`start_time`, `end_time` and `total_price` (and everything else)
unchanged; an unknown id gives `NotFound(booking)`. -/
theorem C8_partial_update_witness :
    (update_booking_endpoint demoState 99
      { booking_date := none, start_time := none, end_time := none
        notes := none, total_price := none } =
      (Except.error (ApiError.notFoundBooking 99), demoState)) ∧
    (∃ b' st', update_booking_endpoint demoState 1
        { booking_date := none, start_time := none, end_time := none
          notes := some (some "updated"), total_price := none } =
        (Except.ok b', st') ∧
      b'.booking_date = demoBooking.booking_date ∧
      b'.start_time = demoBooking.start_time ∧
      b'.end_time = demoBooking.end_time ∧
      b'.notes = some "updated" ∧
      b'.total_price = demoBooking.total_price ∧
      b'.id = demoBooking.id ∧ b'.user_id = demoBooking.user_id ∧
      b'.service_id = demoBooking.service_id ∧
      b'.status = demoBooking.status ∧
      st'.users = demoState.users ∧ st'.services = demoState.services ∧
      (∀ x ∈ demoState.bookings, x.id ≠ 1 → x ∈ st'.bookings)) :=
  ⟨(C8_partial_update demoState 99
      { booking_date := none, start_time := none, end_time := none
        notes := none, total_price := none }).1 rfl,
   (C8_partial_update demoState 1
      { booking_date := none, start_time := none, end_time := none
        notes := some (some "updated"), total_price := none }).2
      demoBooking rfl⟩

/-- C9: deleting an existing booking id removes exactly that record and
reports success, leaving users, services and every booking with a
different id in place; deleting an unknown id yields `NotFound(booking)`
with the state unchanged, not a silent no-op success. -/
theorem C9_delete_booking (st : AppState) (bid : Int) :
    (get_booking st.bookings bid = none →
      delete_booking_endpoint st bid =
        (Except.error (ApiError.notFoundBooking bid), st)) ∧
    (∀ b, get_booking st.bookings bid = some b →
      ∃ st', delete_booking_endpoint st bid = (Except.ok (), st') ∧
        st'.users = st.users ∧ st'.services = st.services ∧
        st'.bookings.length + 1 = st.bookings.length ∧
        (∀ x ∈ st.bookings, x.id ≠ bid → x ∈ st'.bookings) ∧
        (∀ x ∈ st'.bookings, x ∈ st.bookings)) := by
  constructor
  · intro h
    simp [delete_booking_endpoint, delete_booking, h]
  · intro b hb
    refine ⟨{ st with
        bookings := eraseFirst (fun x => x.id == bid) st.bookings },
      ?_, rfl, rfl, ?_, ?_, ?_⟩
    · simp [delete_booking_endpoint, delete_booking, hb]
    · have hb' : st.bookings.find? (fun x => x.id == bid) = some b := hb
      have hpb : (b.id == bid) = true := by
        simpa using List.find?_some hb'
      exact eraseFirst_length _ st.bookings
        ⟨b, List.mem_of_find?_eq_some hb', hpb⟩
    · intro x hx hne
      exact mem_eraseFirst _ st.bookings x hx (by simp [hne])
    · intro x hx
      exact eraseFirst_subset _ st.bookings x hx

/-- Witness for C9: deleting booking 1 from `demoState` succeeds and
removes one record; deleting id 99 yields `NotFound(booking)`. -/
theorem C9_delete_booking_witness :
    (delete_booking_endpoint demoState 99 =
      (Except.error (ApiError.notFoundBooking 99), demoState)) ∧
    (∃ st', delete_booking_endpoint demoState 1 = (Except.ok (), st') ∧
      st'.users = demoState.users ∧ st'.services = demoState.services ∧
      st'.bookings.length + 1 = demoState.bookings.length ∧
      (∀ x ∈ demoState.bookings, x.id ≠ 1 → x ∈ st'.bookings) ∧
      (∀ x ∈ st'.bookings, x ∈ demoState.bookings)) :=
  ⟨(C9_delete_booking demoState 99).1 rfl,
   (C9_delete_booking demoState 1).2 demoBooking rfl⟩

end BookingServices
